import Mathlib

/-!
Shallow embedding of the sst construct library ("temp-sst-bun-dist"):
the in-process event bus (`src/bus.js`), the functional-stack registry
(`src/constructs/FunctionalStack.js`), and the site build pipeline
(`src/constructs/SsrSite.js`, `src/constructs/BaseSite.js`, and the
`StaticSite` construct).  JavaScript objects used as string-keyed maps are
embedded as association lists with JavaScript `Map` / spread semantics.
-/

set_option autoImplicit false

/-- Association-list read, modelling JavaScript `Map.prototype.get` /
`Map.prototype.has`: the first entry with the key (keys stay unique because
`assocSet` overwrites the existing entry in place). -/
def assocGet {κ α : Type} [BEq κ] : List (κ × α) → κ → Option α
  | [], _ => none
  | p :: tl, k => if p.1 == k then some p.2 else assocGet tl k

/-- Association-list write, modelling JavaScript `Map.prototype.set`:
overwrite the entry in place if the key is present, else append. -/
def assocSet {κ α : Type} [BEq κ] : List (κ × α) → κ → α → List (κ × α)
  | [], k, v => [(k, v)]
  | p :: tl, k, v =>
    if p.1 == k then (k, v) :: tl else p :: assocSet tl k v

/-! ## Event bus (`src/bus.js`)

The bus holds a per-type ordered array of `{type, cb}` subscription records;
`publish` builds a single `{type, properties, sourceID}` payload and calls
every subscriber's callback on it in array order.  Callbacks are embedded by
an identity (`Nat`); a publish is embedded as the ordered list of
`(callback, payload)` invocations it performs. -/

/-- A subscription record, as built by `subscribe`: `{ type, cb }`. -/
structure Subscription where
  type : String
  cb : Nat
  deriving DecidableEq, Repr

/-- The event payload built by `publish`: `{ type, properties, sourceID }`. -/
structure Envelope where
  type : String
  properties : String
  sourceID : String
  deriving DecidableEq, Repr

/-- Bus state: the `sourceID` drawn once at bus creation
(`crypto.randomBytes(16).toString("hex")`) and the `subscriptions` record
mapping an event type to its ordered subscriber array. -/
structure BusState where
  sourceID : String
  subscriptions : List (String × List Subscription)
  deriving Repr

namespace Bus

/-- Bus creation (`useBus` on first use): random `sourceID` (a parameter
here), empty subscription table. -/
def create (sid : String) : BusState :=
  ⟨sid, []⟩

/-- `subscribers(type)`: the array for `type`, empty if absent. -/
def subscribers (s : BusState) (type : String) : List Subscription :=
  (assocGet s.subscriptions type).getD []

/-- `subscribe(type, cb)`: push a `{type, cb}` record onto that type's
array and return it as the handle. -/
def subscribe (s : BusState) (type : String) (cb : Nat) :
    BusState × Subscription :=
  let sub : Subscription := ⟨type, cb⟩
  (⟨s.sourceID, assocSet s.subscriptions type (subscribers s type ++ [sub])⟩,
    sub)

/-- `publish(type, properties)`: build the payload once and invoke every
subscriber for `type` on it, in array order.  The result is the ordered
list of `(callback, payload)` invocations. -/
def publish (s : BusState) (type properties : String) :
    List (Nat × Envelope) :=
  let payload : Envelope := ⟨type, properties, s.sourceID⟩
  (subscribers s type).map (fun sub => (sub.cb, payload))

/-- `forward(..._types)`: returns `(type, cb) => this.subscribe(type, cb)`;
the `_types` arguments are never used. -/
def forward (s : BusState) (_types : List String) :
    String → Nat → BusState × Subscription :=
  fun type cb => subscribe s type cb

end Bus

/-! ## Functional-stack registry (`src/constructs/FunctionalStack.js`)

Two process-wide `Map`s keyed per application instance (`exportsCache`,
`stackCache`), each holding a per-app `Map` keyed by the stack definition
function (identity-compared).  Applications, definition functions, stack
handles, outputs and pending promises are embedded by identity (`Nat`).
A definition body either returns a plain value (synchronous) or a
then-able (asynchronous); in the latter case the output is written to
`exportsCache` only when the promise resolves (`resolveStack`). -/

/-- The return value of a stack definition function: a plain value, or a
promise (`returns && "then" in returns`) identified by `pid`. -/
inductive StackBody where
  | sync (out : Nat)
  | async (pid : Nat)
  deriving DecidableEq, Repr

/-- The error taxonomy observed by the embedded fragments (the spec calls
all of these `ConfigError`). -/
inductive SstError where
  | stackDuplicates (fn : Nat)
  | stackWrongOrder (fn : Nat) (current : Option Nat)
  | noAppSet
  | siteNotFound (path : String)
  | timeoutTooLong (edge : Bool)
  deriving DecidableEq, Repr

/-- The module-level mutable state of `FunctionalStack.js`. -/
structure RegistryState where
  exportsCache : List (Nat × List (Nat × Nat))
  stackCache : List (Nat × List (Nat × Nat))
  currentApp : Option Nat
  currentStack : Option Nat
  deriving DecidableEq, Repr

namespace FunctionalStack

/-- Fresh module state (both caches empty, no current app/stack). -/
def initState : RegistryState :=
  ⟨[], [], none, none⟩

/-- `getExports(app)`: the per-app exports map, empty if absent.  (The
source lazily inserts an empty `Map`; reading an absent key as the empty
map is observably the same.) -/
def getExports (s : RegistryState) (app : Nat) : List (Nat × Nat) :=
  (assocGet s.exportsCache app).getD []

/-- `getStacks(app)`: the per-app stack-handle map, empty if absent. -/
def getStacks (s : RegistryState) (app : Nat) : List (Nat × Nat) :=
  (assocGet s.stackCache app).getD []

/-- `stack(app, fn, props)`: sets `currentApp`/`currentStack`, throws
`StackDuplicates` when `getExports(app).has(fn)`, else records the stack
handle, runs the body, and stores the output — immediately for a plain
return, or on promise resolution (`resolveStack`) for a then-able. -/
def stack (s : RegistryState) (app fn : Nat) (body : StackBody) :
    Except SstError RegistryState :=
  -- The source sets `currentApp`/`currentStack` before the duplicate
  -- check; the check reads only `exportsCache`, which those writes do not
  -- touch, and a throw aborts the build, so checking first on `s` is
  -- observationally the same.
  if (assocGet (getExports s app) fn).isSome then
    .error (.stackDuplicates fn)
  else
    let s1 : RegistryState :=
      { s with
          currentApp := some app
          currentStack := some fn
          stackCache :=
            assocSet s.stackCache app (assocSet (getStacks s app) fn fn) }
    match body with
    | .sync out =>
      .ok { s1 with exportsCache := (assocSet s1.exportsCache app
              (assocSet (getExports s1 app) fn out)) }
    | .async _ => .ok s1

/-- The `.then((data) => getExports(app).set(fn, data))` continuation of an
asynchronous stack body, run when the promise resolves with `out`. -/
def resolveStack (s : RegistryState) (app fn out : Nat) : RegistryState :=
  { s with exportsCache := (assocSet s.exportsCache app
      (assocSet (getExports s app) fn out)) }

/-- `use(stack)`: requires a current app, throws `StackWrongOrder` when the
current app's exports map has no entry for `fn`, else returns the stored
output. -/
def use (s : RegistryState) (fn : Nat) : Except SstError Nat :=
  match s.currentApp with
  | none => .error .noAppSet
  | some app =>
    match assocGet (getExports s app) fn with
    | none => .error (.stackWrongOrder fn s.currentStack)
    | some v => .ok v

end FunctionalStack

/-! ## Site environment handling (`src/constructs/BaseSite.js`)

A declared site environment maps a key to a CDK value that is either
already resolved (a plain string) or an unresolved deferred token
(`Token.isUnresolved`).  Environments handed to child processes are
string-keyed JavaScript objects; object spread gives later entries
precedence, embedded as list append with a last-wins lookup. -/

/-- A declared site environment value: either resolvable at build time or
an unresolved CDK token (the `render` field is the token's text, used
verbatim when the value is pushed into a replace rule). -/
inductive SiteValue where
  | literal (s : String)
  | token (t : String)
  deriving DecidableEq, Repr

/-- `Token.isUnresolved(value)`. -/
def SiteValue.isUnresolved : SiteValue → Bool
  | .literal _ => false
  | .token _ => true

/-- The raw value as it is written into an environment entry or a replace
rule. -/
def SiteValue.render : SiteValue → String
  | .literal s => s
  | .token t => t

/-- The `"{{ KEY }}"` placeholder string built for an unresolved value. -/
def placeholder (key : String) : String :=
  "\x7b\x7b " ++ key ++ " \x7d\x7d"

/-- `getBuildCmdEnvironment(siteEnvironment)`: one entry per declared
variable; an unresolved value becomes the `"{{ KEY }}"` placeholder, a
resolved one stays itself. -/
def getBuildCmdEnvironment (siteEnvironment : List (String × SiteValue)) :
    List (String × String) :=
  siteEnvironment.map
    (fun p => (p.1, if p.2.isUnresolved then placeholder p.1 else p.2.render))

/-- Lookup on an environment object built by object spread: the last
entry with the key wins, because a later spread overrides an earlier
one. -/
def envLookup (l : List (String × String)) (k : String) : Option String :=
  match l with
  | [] => none
  | p :: tl =>
    match envLookup tl k with
    | some v => some v
    | none => if p.1 == k then some p.2 else none

/-- The same last-wins lookup for a declared site environment. -/
def siteEnvLookup (se : List (String × SiteValue)) (k : String) :
    Option SiteValue :=
  match se with
  | [] => none
  | p :: tl =>
    match siteEnvLookup tl k with
    | some v => some v
    | none => if p.1 == k then some p.2 else none

/-- The environment `SsrSite.runBuild` passes to `execSync`:
`{ SST: "1", ...process.env, ...getBuildCmdEnvironment(environment) }`. -/
def runBuildEnvironment (processEnv : List (String × String))
    (siteEnv : List (String × SiteValue)) : List (String × String) :=
  ("SST", "1") :: (processEnv ++ getBuildCmdEnvironment siteEnv)

/-- Follows the spec's words, for comparison with `runBuildEnvironment`:
"external build tools receive the full inherited process environment plus
one entry per declared site environment variable" (each entry literal or
placeholder, which is `getBuildCmdEnvironment`). -/
def claimedBuildEnvironment (processEnv : List (String × String))
    (siteEnv : List (String × SiteValue)) : List (String × String) :=
  processEnv ++ getBuildCmdEnvironment siteEnv

/-- One entry of the `ReplaceValues` list handed to the S3 deployment
custom resource. -/
structure ReplaceValue where
  files : String
  search : String
  replace : String
  deriving DecidableEq, Repr

/-! ## SsrSite (`src/constructs/SsrSite.js`) -/

/-- `app.mode`; the constructor only distinguishes `"dev"` from the rest. -/
inductive AppMode where
  | deploy
  | dev
  deriving DecidableEq, Repr

/-- The `dev` prop block: `{ deploy?: boolean, url?: string }`. -/
structure DevProps where
  deploy : Option Bool := none
  url : Option String := none
  deriving DecidableEq, Repr

/-- Seconds per duration unit of the `"n unit"` duration literals. -/
inductive DurationUnit where
  | second
  | minute
  | hour
  | day
  deriving DecidableEq, Repr

/-- Modelled from the spec: `toCdkDuration` lives in
`src/constructs/util/duration.js`, which is not among the provided
sources; per the declared `Duration` string type and the spec's
"timeout in seconds", a literal `"n unit"` converts to `n` times the
seconds in one unit. -/
def DurationUnit.factor : DurationUnit → Nat
  | .second => 1
  | .minute => 60
  | .hour => 3600
  | .day => 86400

/-- The `timeout` prop: `number | Duration` — a plain number is already in
seconds, a duration literal `"n unit"` is converted by `toCdkDuration`. -/
inductive Timeout where
  | seconds (n : Nat)
  | duration (count : Nat) (unit : DurationUnit)
  deriving DecidableEq, Repr

/-- `typeof timeout === "number" ? timeout : toCdkDuration(timeout).toSeconds()`. -/
def Timeout.toSeconds : Timeout → Nat
  | .seconds n => n
  | .duration count unit => count * unit.factor

/-- The SsrSite props the embedded fragments read (defaults as applied in
the constructor: `path: "."`, `timeout: "10 seconds"`). -/
structure SsrSiteProps where
  path : String := "."
  dev : Option DevProps := none
  edge : Option Bool := none
  timeout : Timeout := Timeout.duration 10 DurationUnit.second
  environment : List (String × SiteValue) := []
  buildCommand : Option String := none
  deriving DecidableEq, Repr

/-- What the deferred build task registered by the constructor will do
when the queue drains (build command, S3 deployment custom resource,
static-file CDN behaviors, CloudFront invalidation). -/
structure SitePipelineSpec where
  buildCommand : String
  createsS3Deployment : Bool
  addsStaticFileBehaviors : Bool
  createsInvalidation : Bool
  deriving DecidableEq, Repr

/-- The construction outcome of an `SsrSite`: the `doNotDeploy` flag, the
resources created synchronously (bucket, distribution, dev server
function), and the deferred site pipeline task, if any was registered. -/
structure SsrSiteModel where
  doNotDeploy : Bool
  bucketCreated : Bool
  distributionCreated : Bool
  devServerFunctionCreated : Bool
  sitePipelineTask : Option SitePipelineSpec
  deriving DecidableEq, Repr

namespace SsrSite

/-- `!stack.isActive || (app.mode === "dev" && !this.props.dev?.deploy)`. -/
def doNotDeploy (isActive : Bool) (mode : AppMode) (props : SsrSiteProps) :
    Bool :=
  !isActive ||
    (mode == AppMode.dev && !((props.dev.bind DevProps.deploy).getD false))

/-- `validateTimeout()`: the ceiling is 30 seconds with the `edge` flag,
180 seconds otherwise; exceeding it throws. -/
def validateTimeout (edge : Bool) (timeout : Timeout) :
    Except SstError Unit :=
  let num := timeout.toSeconds
  let limit : Nat := if edge then 30 else 180
  if num > limit then .error (.timeoutTooLong edge) else .ok ()

/-- The `SsrSite` constructor: compute `doNotDeploy`, validate the site
path and the timeout, then either stop early (dev placeholder: no bucket,
no distribution, only the dev server function, no site pipeline task) or
create bucket/distribution and register the deferred site pipeline task. -/
def construct (isActive : Bool) (mode : AppMode) (sitePathFound : Bool)
    (props : SsrSiteProps) : Except SstError SsrSiteModel :=
  let dnd := doNotDeploy isActive mode props
  if !sitePathFound then
    .error (.siteNotFound props.path)
  else
    match validateTimeout (props.edge.getD false) props.timeout with
    | .error e => .error e
    | .ok _ =>
      if dnd then
        .ok ⟨true, false, false, true, none⟩
      else
        .ok ⟨false, true, true, false,
          some ⟨props.buildCommand.getD "npm run build", true, true, true⟩⟩

/-- The `url` getter: `this.props.dev?.url` when `doNotDeploy`, else the
distribution's URL. -/
def url (dnd : Bool) (devUrl : Option String) (distributionUrl : String) :
    Option String :=
  if dnd then devUrl else some distributionUrl

end SsrSite

/-- The `type` tag of the `url` binding variable. -/
inductive BindingValueType where
  | plain
  | siteUrl
  deriving DecidableEq, Repr

/-- The `variables.url` descriptor returned by `getFunctionBinding`. -/
structure BindingUrlVariable where
  type : BindingValueType
  value : String
  deriving DecidableEq, Repr

namespace SsrSite

/-- `getFunctionBinding().variables.url`: for a do-not-deploy site a plain
value `this.props.dev?.url ?? "localhost"`; for a deployed site a
late-bound `site_url` value. -/
def bindingUrlVariable (dnd : Bool) (devUrl : Option String)
    (deployedUrl : String) : BindingUrlVariable :=
  if dnd then ⟨.plain, devUrl.getD "localhost"⟩ else ⟨.siteUrl, deployedUrl⟩

/-- The part-discovery loop of `createS3Assets`: probe
`part0.zip, part1.zip, …` in the archiver's output directory and collect
one asset per consecutive existing part, stopping at the first missing
file.  `found n` says whether `part{n}.zip` exists; the source loop is
unbounded, so termination needs some part to be missing. -/
def createS3Assets (found : Nat → Bool) (h : ∃ n, found n = false) :
    List Nat :=
  List.range (Nat.find h)

/-- The `glob.sync("**", …)` file listing of the client build output
directory: the relative paths, sorted; file contents are never read. -/
def clientFileListing (clientOutput : List (String × String)) :
    List String :=
  List.insertionSort (· ≤ ·) (clientOutput.map Prod.fst)

/-- `generateBuildId()`: feed each globbed filename of the client build
output into a digest (sha1 in the source) and return the digest. -/
def generateBuildId (digest : List String → String)
    (clientOutput : List (String × String)) : String :=
  digest (clientFileListing clientOutput)

/-- `SsrSite.getS3ContentReplaceValues()`: for every unresolved
environment variable push replace rules for `**/*.html`, `**/*.js` and
`**/*.json`. -/
def getS3ContentReplaceValues (environment : List (String × SiteValue)) :
    List ReplaceValue :=
  ((environment.filter (fun p => p.2.isUnresolved)).map (fun p =>
    [⟨"**/*.html", placeholder p.1, p.2.render⟩,
     ⟨"**/*.js", placeholder p.1, p.2.render⟩,
     ⟨"**/*.json", placeholder p.1, p.2.render⟩])).flatten

end SsrSite

namespace StaticSite

/-- `StaticSite.getS3ContentReplaceValues()`: starts from
`this.props.replaceValues || []` and, for every unresolved environment
variable, pushes replace rules for `**/*.html` and `**/*.js` only. -/
def getS3ContentReplaceValues (replaceValuesProp : List ReplaceValue)
    (environment : List (String × SiteValue)) : List ReplaceValue :=
  replaceValuesProp ++
    ((environment.filter (fun p => p.2.isUnresolved)).map (fun p =>
      [⟨"**/*.html", placeholder p.1, p.2.render⟩,
       ⟨"**/*.js", placeholder p.1, p.2.render⟩])).flatten

end StaticSite

/-! ## Supporting lemmas -/

theorem assocGet_assocSet_self {κ α : Type} [BEq κ] [LawfulBEq κ]
    (l : List (κ × α)) (k : κ) (v : α) :
    assocGet (assocSet l k v) k = some v := by
  induction l with
  | nil => simp [assocGet, assocSet]
  | cons hd tl ih =>
    by_cases hk : hd.1 == k
    · simp [assocGet, assocSet, hk]
    · simp [assocGet, assocSet, hk, ih]

theorem assocGet_assocSet_ne {κ α : Type} [BEq κ] [LawfulBEq κ]
    (l : List (κ × α)) (k k' : κ) (v : α) (hne : (k == k') = false) :
    assocGet (assocSet l k v) k' = assocGet l k' := by
  induction l with
  | nil => simp [assocGet, assocSet, hne]
  | cons hd tl ih =>
    by_cases hk : hd.1 == k
    · have hdk : hd.1 = k := by simpa using hk
      simp [assocGet, assocSet, hk, hne, hdk]
    · by_cases hk' : hd.1 == k'
      · simp [assocGet, assocSet, hk, hk']
      · simp [assocGet, assocSet, hk, hk', ih]

/-! ## Claim theorems -/

/-- C10: the event bus's `forward` ignores its type arguments entirely —
for every argument list and every `(type, cb)`, the function returned by
`forward(...types)` applied to `(type, cb)` produces exactly the same
subscription (same bus state, same handle) as `subscribe(type, cb)`. -/
theorem bus_forward_is_subscribe (s : BusState) (ts : List String)
    (ty : String) (cb : Nat) :
    Bus.forward s ts ty cb = Bus.subscribe s ty cb := rfl

/-- C7: `publish` synchronously invokes the callback of every currently
registered subscriber for the published type, in subscription order,
passing each one the identical `{type, properties, sourceID}` envelope
whose `sourceID` is the identifier fixed at bus creation; in particular
with two subscribers both are invoked, in subscribe order, with the same
envelope. -/
theorem bus_publish_in_order_same_envelope (s : BusState)
    (ty pr sid : String) (c1 c2 : Nat) :
    (Bus.publish s ty pr =
      (Bus.subscribers s ty).map
        (fun sub => (sub.cb, ⟨ty, pr, s.sourceID⟩))) ∧
    (Bus.publish
        ((Bus.subscribe ((Bus.subscribe (Bus.create sid) ty c1).1) ty c2).1)
        ty pr =
      [(c1, ⟨ty, pr, sid⟩), (c2, ⟨ty, pr, sid⟩)]) := by
  refine ⟨rfl, ?_⟩
  simp [Bus.publish, Bus.subscribe, Bus.subscribers, Bus.create,
    assocGet, assocSet]

/-- C2: the part-discovery loop of `createS3Assets` probes consecutively
numbered zip files from `part0.zip` and stops at the first index whose
file does not exist: if parts `0..k-1` exist and part `k` is absent, it
yields exactly the assets for parts `0..k-1` — `k` of them — regardless of
which higher-numbered files exist. -/
theorem createS3Assets_stops_at_first_missing (found : Nat → Bool)
    (k : Nat) (hk : found k = false)
    (hlow : ∀ i, i < k → found i = true) :
    SsrSite.createS3Assets found ⟨k, hk⟩ = List.range k ∧
    (SsrSite.createS3Assets found ⟨k, hk⟩).length = k := by
  have hfind : Nat.find (⟨k, hk⟩ : ∃ n, found n = false) = k := by
    rw [Nat.find_eq_iff]
    exact ⟨hk, fun n hn => by simp [hlow n hn]⟩
  constructor
  · unfold SsrSite.createS3Assets
    rw [hfind]
  · unfold SsrSite.createS3Assets
    rw [hfind, List.length_range]

/-- C2 witness: parts 0–4 exist, part 5 is absent, part 7 also exists;
discovery yields exactly the 5 assets for parts 0–4. -/
theorem createS3Assets_stops_at_first_missing_witness :
    SsrSite.createS3Assets (fun n => decide (n < 5) || decide (n = 7))
        ⟨5, by decide⟩ = List.range 5 ∧
    (SsrSite.createS3Assets (fun n => decide (n < 5) || decide (n = 7))
        ⟨5, by decide⟩).length = 5 :=
  createS3Assets_stops_at_first_missing
    (fun n => decide (n < 5) || decide (n = 7)) 5 (by decide)
    (by decide)

/-- C6: `validateTimeout` runs during construct instantiation (before the
deferred build task that launches any external process) and fails exactly
when the configured timeout, in seconds, exceeds 30 with the `edge` flag
and 180 without it; a failing timeout makes construction itself fail. -/
theorem validateTimeout_mode_dependent_ceiling (edge : Bool) (t : Timeout) :
    ((SsrSite.validateTimeout edge t).isOk = false ↔
      t.toSeconds > (if edge then 30 else 180)) ∧
    (∀ (isActive : Bool) (mode : AppMode) (props : SsrSiteProps),
      props.edge.getD false = edge → props.timeout = t →
      t.toSeconds > (if edge then 30 else 180) →
      SsrSite.construct isActive mode true props =
        .error (.timeoutTooLong edge)) := by
  constructor
  · unfold SsrSite.validateTimeout
    by_cases h : t.toSeconds > (if edge then 30 else 180)
    · simp [h, Except.isOk, Except.toBool]
    · simp [h, Except.isOk, Except.toBool]
  · intro isActive mode props hedge htimeout hgt
    have hval : SsrSite.validateTimeout edge t =
        .error (.timeoutTooLong edge) := by
      unfold SsrSite.validateTimeout
      simp [hgt]
    unfold SsrSite.construct
    rw [hedge, htimeout, hval]
    simp

/-- C6 witness: a 31-second timeout with the `edge` flag fails validation
and fails construction with the timeout error. -/
theorem validateTimeout_mode_dependent_ceiling_witness :
    ((SsrSite.validateTimeout true (Timeout.seconds 31)).isOk = false) ∧
    (SsrSite.construct true AppMode.dev true
        { edge := some true, timeout := Timeout.seconds 31 } =
      .error (.timeoutTooLong true)) :=
  ⟨(validateTimeout_mode_dependent_ceiling true (Timeout.seconds 31)).1.mpr
      (by decide),
    (validateTimeout_mode_dependent_ceiling true (Timeout.seconds 31)).2
      true AppMode.dev
      { edge := some true, timeout := Timeout.seconds 31 }
      (by decide) rfl (by decide)⟩

/-- C1: an `SsrSite` constructed while the application is in dev mode with
`dev.deploy` set to `false` is a do-not-deploy site: construction registers
no site pipeline task (so the build command is never invoked and no
archives, S3 upload/deployment resources or CDN behaviors are produced),
creates no bucket or distribution, and the site's binding reports its URL
as the configured `dev.url`, or `"localhost"` if `dev.url` is unset. -/
theorem ssrSite_dev_deploy_false_placeholder (isActive found : Bool)
    (props : SsrSiteProps) (m : SsrSiteModel) (d : String)
    (hdev : props.dev.bind DevProps.deploy = some false)
    (hok : SsrSite.construct isActive AppMode.dev found props = .ok m) :
    m.doNotDeploy = true ∧ m.sitePipelineTask = none ∧
    m.bucketCreated = false ∧ m.distributionCreated = false ∧
    m.devServerFunctionCreated = true ∧
    SsrSite.url m.doNotDeploy (props.dev.bind DevProps.url) d =
      props.dev.bind DevProps.url ∧
    SsrSite.bindingUrlVariable m.doNotDeploy (props.dev.bind DevProps.url) d =
      ⟨.plain, (props.dev.bind DevProps.url).getD "localhost"⟩ := by
  have hdnd : SsrSite.doNotDeploy isActive AppMode.dev props = true := by
    unfold SsrSite.doNotDeploy
    rw [hdev]
    simp
  unfold SsrSite.construct at hok
  rw [hdnd] at hok
  cases found with
  | false => simp at hok
  | true =>
    simp only [Bool.not_true, if_false, if_true] at hok
    cases hval : SsrSite.validateTimeout (props.edge.getD false)
        props.timeout with
    | error e => rw [hval] at hok; cases hok
    | ok u =>
      rw [hval] at hok
      simp at hok
      subst hok
      refine ⟨rfl, rfl, rfl, rfl, rfl, ?_, ?_⟩
      · simp [SsrSite.url]
      · simp [SsrSite.bindingUrlVariable]

/-- C1 witness: a concrete dev-mode site with `dev.deploy = false` and
`dev.url = "https://dev.example"` constructs into the placeholder model. -/
theorem ssrSite_dev_deploy_false_placeholder_witness :
    let p : SsrSiteProps :=
      { dev := some { deploy := some false, url := some "https://dev.example" } }
    (SsrSite.construct true AppMode.dev true p =
      .ok ⟨true, false, false, true, none⟩) ∧
    (SsrSite.url true (some "https://dev.example") "https://cdn.example" =
      some "https://dev.example") ∧
    (SsrSite.bindingUrlVariable true (some "https://dev.example")
        "https://cdn.example" =
      ⟨.plain, "https://dev.example"⟩) := by
  intro p
  have hok : SsrSite.construct true AppMode.dev true p =
      .ok ⟨true, false, false, true, none⟩ := rfl
  have h := ssrSite_dev_deploy_false_placeholder true true p
    ⟨true, false, false, true, none⟩ "https://cdn.example" rfl hok
  exact ⟨hok, h.2.2.2.2.2.1, h.2.2.2.2.2.2⟩

/-- C4 counterexample: with a fresh registry, register definition 7 for
application 0 with an asynchronous body and — before that body's promise
resolves — register the same definition for the same application again.
The claim requires the second registration to fail with the duplicate
error, but it succeeds: the duplicate check consults the exports map,
which an asynchronous body populates only on resolution. -/
theorem stack_async_duplicate_undetected :
    ((FunctionalStack.stack FunctionalStack.initState 0 7
        (StackBody.async 0)).bind
      (fun s1 => FunctionalStack.stack s1 0 7 (StackBody.async 1))).isOk =
      true := by decide


/-- C4 (amended): registering a stack definition a second time for the
same application fails with the duplicate-stack error once the first
registration's output is recorded — immediately for a synchronous body,
upon promise resolution for an asynchronous one — while a second
registration during the unresolved window of an asynchronous first body
is not detected and succeeds; registering the same definition for two
different applications independently succeeds. -/
theorem stack_duplicate_detection (s s' : RegistryState)
    (app app2 fn out pid : Nat) (body body2 : StackBody) :
    ((assocGet (FunctionalStack.getExports s app) fn).isSome = true →
      FunctionalStack.stack s app fn body =
        .error (.stackDuplicates fn)) ∧
    (FunctionalStack.stack s app fn (StackBody.sync out) = .ok s' →
      FunctionalStack.stack s' app fn body2 =
        .error (.stackDuplicates fn)) ∧
    (FunctionalStack.stack s app fn (StackBody.async pid) = .ok s' →
      FunctionalStack.stack (FunctionalStack.resolveStack s' app fn out)
          app fn body2 = .error (.stackDuplicates fn)) ∧
    (FunctionalStack.stack s app fn (StackBody.async pid) = .ok s' →
      (FunctionalStack.stack s' app fn body2).isOk = true) ∧
    (app ≠ app2 →
      (assocGet (FunctionalStack.getExports s app2) fn).isSome = false →
      FunctionalStack.stack s app fn body = .ok s' →
      (FunctionalStack.stack s' app2 fn body2).isOk = true) := by
  have hreg : ∀ (t : RegistryState) (a : Nat) (b : StackBody),
      (assocGet (FunctionalStack.getExports t a) fn).isSome = true →
      FunctionalStack.stack t a fn b = .error (.stackDuplicates fn) := by
    intro t a b h
    unfold FunctionalStack.stack
    rw [h]
    simp
  have hfree : ∀ (t t' : RegistryState) (b : StackBody),
      FunctionalStack.stack t app fn b = .ok t' →
      (assocGet (FunctionalStack.getExports t app) fn).isSome = false := by
    intro t t' b h
    by_cases hc : (assocGet (FunctionalStack.getExports t app) fn).isSome
    · rw [hreg t app b hc] at h
      cases h
    · simpa using hc
  refine ⟨hreg s app body, ?_, ?_, ?_, ?_⟩
  · intro hok
    have hc := hfree s s' (StackBody.sync out) hok
    unfold FunctionalStack.stack at hok
    rw [hc] at hok
    simp at hok
    apply hreg
    rw [← hok]
    unfold FunctionalStack.getExports
    rw [assocGet_assocSet_self]
    simp [assocGet_assocSet_self]
  · intro _
    apply hreg
    unfold FunctionalStack.resolveStack FunctionalStack.getExports
    simp [assocGet_assocSet_self]
  · intro hok
    have hc := hfree s s' (StackBody.async pid) hok
    unfold FunctionalStack.stack at hok
    rw [hc] at hok
    simp at hok
    have hexp : FunctionalStack.getExports s' app =
        FunctionalStack.getExports s app := by
      rw [← hok]; rfl
    unfold FunctionalStack.stack
    rw [hexp, hc]
    cases body2 <;> simp [Except.isOk, Except.toBool]
  · intro hne hfree2 hok
    have hc := hfree s s' body hok
    have happ2 : FunctionalStack.getExports s' app2 =
        FunctionalStack.getExports s app2 := by
      unfold FunctionalStack.stack at hok
      rw [hc] at hok
      cases body with
      | sync o =>
        simp at hok
        rw [← hok]
        unfold FunctionalStack.getExports
        rw [assocGet_assocSet_ne]
        simpa using hne
      | async p =>
        simp at hok
        rw [← hok]; rfl
    unfold FunctionalStack.stack
    rw [happ2, hfree2]
    cases body2 <;> simp [Except.isOk, Except.toBool]

/-- C4 witness: a synchronous registration under application 0 makes the
repeat registration fail with the duplicate error, while registering the
same definition under application 1 still succeeds. -/
theorem stack_duplicate_detection_witness :
    (FunctionalStack.stack
        ⟨[(0, [(7, 42)])], [(0, [(7, 7)])], some 0, some 7⟩ 0 7
        (StackBody.sync 43) = .error (.stackDuplicates 7)) ∧
    ((FunctionalStack.stack
        ⟨[(0, [(7, 42)])], [(0, [(7, 7)])], some 0, some 7⟩ 1 7
        (StackBody.sync 43)).isOk = true) :=
  ⟨(stack_duplicate_detection FunctionalStack.initState
        ⟨[(0, [(7, 42)])], [(0, [(7, 7)])], some 0, some 7⟩
        0 1 7 42 0 (StackBody.sync 42) (StackBody.sync 43)).2.1 rfl,
    (stack_duplicate_detection FunctionalStack.initState
        ⟨[(0, [(7, 42)])], [(0, [(7, 7)])], some 0, some 7⟩
        0 1 7 42 0 (StackBody.sync 42) (StackBody.sync 43)).2.2.2.2
      (by decide) (by decide) rfl⟩

/-- C5: `use(definitionFn)` before the definition's output is registered
for the currently-building application fails with the wrong-order error;
after registration it returns exactly the stored output, including the
resolved value of an asynchronous stack body once its promise completes. -/
theorem use_wrong_order_and_stored_value (s : RegistryState)
    (a fn v out : Nat) :
    (s.currentApp = some a →
      assocGet (FunctionalStack.getExports s a) fn = none →
      FunctionalStack.use s fn =
        .error (.stackWrongOrder fn s.currentStack)) ∧
    (s.currentApp = some a →
      assocGet (FunctionalStack.getExports s a) fn = some v →
      FunctionalStack.use s fn = .ok v) ∧
    (s.currentApp = some a →
      FunctionalStack.use (FunctionalStack.resolveStack s a fn out) fn =
        .ok out) := by
  refine ⟨?_, ?_, ?_⟩
  · intro hcur hnone
    simp [FunctionalStack.use, hcur, hnone]
  · intro hcur hsome
    simp [FunctionalStack.use, hcur, hsome]
  · intro hcur
    have hcur' : (FunctionalStack.resolveStack s a fn out).currentApp =
        some a := hcur
    have hget : assocGet (FunctionalStack.getExports
        (FunctionalStack.resolveStack s a fn out) a) fn = some out := by
      unfold FunctionalStack.resolveStack FunctionalStack.getExports
      simp [assocGet_assocSet_self]
    simp [FunctionalStack.use, hcur', hget]

/-- C5 witness: with application 0 current and nothing registered, `use`
fails with the wrong-order error; after the asynchronous body for
definition 7 resolves with output 42, `use` returns 42. -/
theorem use_wrong_order_and_stored_value_witness :
    (FunctionalStack.use ⟨[], [], some 0, some 3⟩ 7 =
      .error (.stackWrongOrder 7 (some 3))) ∧
    (FunctionalStack.use
        (FunctionalStack.resolveStack ⟨[], [], some 0, some 3⟩ 0 7 42) 7 =
      .ok 42) :=
  ⟨(use_wrong_order_and_stored_value ⟨[], [], some 0, some 3⟩ 0 7 0 42).1
      rfl rfl,
    (use_wrong_order_and_stored_value ⟨[], [], some 0, some 3⟩ 0 7 0
        42).2.2 rfl⟩

/-- C3: for the SSR hashing strategy the invalidation build identifier is
a function of only the relative file listing of the client build output:
two builds whose client output directories contain the same set of
relative paths get the same identifier from `generateBuildId`, whatever
digest the hash computes and however the file contents differ. -/
theorem generateBuildId_listing_only (digest : List String → String)
    (out1 out2 : List (String × String))
    (h1 : (out1.map Prod.fst).Nodup) (h2 : (out2.map Prod.fst).Nodup)
    (hset : ∀ p, p ∈ out1.map Prod.fst ↔ p ∈ out2.map Prod.fst) :
    SsrSite.generateBuildId digest out1 =
      SsrSite.generateBuildId digest out2 := by
  have hperm : (out1.map Prod.fst).Perm (out2.map Prod.fst) :=
    (List.perm_ext_iff_of_nodup h1 h2).mpr hset
  have hlist : SsrSite.clientFileListing out1 =
      SsrSite.clientFileListing out2 := by
    unfold SsrSite.clientFileListing
    refine List.eq_of_perm_of_sorted
      (((List.perm_insertionSort _ _).trans hperm).trans
        (List.perm_insertionSort _ _).symm)
      (List.sorted_insertionSort _ _) (List.sorted_insertionSort _ _)
  unfold SsrSite.generateBuildId
  rw [hlist]

/-- C3 witness: two client outputs with the same two relative paths but
different contents (and different order) hash to the same identifier. -/
theorem generateBuildId_listing_only_witness :
    SsrSite.generateBuildId (fun l => String.join l)
        [("index.html", "old content"), ("app.js", "AAA")] =
      SsrSite.generateBuildId (fun l => String.join l)
        [("app.js", "BBB"), ("index.html", "new content")] :=
  generateBuildId_listing_only (fun l => String.join l)
    [("index.html", "old content"), ("app.js", "AAA")]
    [("app.js", "BBB"), ("index.html", "new content")]
    (by decide) (by decide)
    (by intro p; simp; tauto)
theorem envLookup_cons (p : String × String) (tl : List (String × String))
    (k : String) :
    envLookup (p :: tl) k =
      match envLookup tl k with
      | some v => some v
      | none => if p.1 == k then some p.2 else none := rfl

theorem siteEnvLookup_cons (p : String × SiteValue)
    (tl : List (String × SiteValue)) (k : String) :
    siteEnvLookup (p :: tl) k =
      match siteEnvLookup tl k with
      | some v => some v
      | none => if p.1 == k then some p.2 else none := rfl

theorem envLookup_append (a b : List (String × String)) (k : String) :
    envLookup (a ++ b) k =
      match envLookup b k with
      | some v => some v
      | none => envLookup a k := by
  induction a with
  | nil =>
    cases h : envLookup b k <;> simp [envLookup, h]
  | cons p tl ih =>
    rw [List.cons_append, envLookup_cons, ih, envLookup_cons]
    cases hb : envLookup b k <;> cases ht : envLookup tl k <;> simp

theorem envLookup_buildCmdEnvironment (se : List (String × SiteValue))
    (k : String) :
    envLookup (getBuildCmdEnvironment se) k =
      (siteEnvLookup se k).map
        (fun v => if v.isUnresolved then placeholder k else v.render) := by
  induction se with
  | nil => rfl
  | cons p tl ih =>
    simp only [getBuildCmdEnvironment] at ih ⊢
    rw [List.map_cons, envLookup_cons, ih, siteEnvLookup_cons]
    cases ht : siteEnvLookup tl k with
    | some v => simp
    | none =>
      by_cases hk : p.1 == k
      · have hpk : p.1 = k := by simpa using hk
        simp [hk, hpk]
      · simp [hk]

/-- C8 counterexample: with an empty process environment and no declared
site variables, the environment `runBuild` hands to the build command is
not the claimed "process environment plus site entries" — it also carries
the `SST=1` marker entry. -/
theorem runBuildEnvironment_not_as_claimed :
    runBuildEnvironment [] [] ≠ claimedBuildEnvironment [] [] ∧
    envLookup (runBuildEnvironment [] []) "SST" = some "1" ∧
    envLookup (claimedBuildEnvironment [] []) "SST" = none := by
  refine ⟨by decide, by decide, by decide⟩

/-- C8 (amended): the environment passed to the external build command is
the full inherited process environment plus one entry per declared site
environment variable — the literal value if resolvable, the `"{{ KEY }}"`
placeholder if unresolved — on top of a default `SST="1"` entry that the
process environment or a site variable may override. -/
theorem runBuildEnvironment_lookup (pe : List (String × String))
    (se : List (String × SiteValue)) (k : String) :
    envLookup (runBuildEnvironment pe se) k =
      match siteEnvLookup se k with
      | some v => some (if v.isUnresolved then placeholder k else v.render)
      | none =>
        match envLookup pe k with
        | some s => some s
        | none => if ("SST" : String) == k then some "1" else none := by
  unfold runBuildEnvironment
  rw [envLookup_cons, envLookup_append, envLookup_buildCmdEnvironment]
  cases hse : siteEnvLookup se k <;> cases hpe : envLookup pe k <;> simp

/-- C9 counterexample: `StaticSite` declares `API_URL` with an unresolved
token; the generated `ReplaceValues` list substitutes the placeholder in
HTML (and JS), but contains no rule at all for `**/*.json` files —
contradicting the claim that every such variable's replace rules cover
HTML, JS and JSON. -/
theorem staticSite_replaceValues_lack_json :
    (⟨"**/*.html", placeholder "API_URL", "TOK"⟩ ∈
      StaticSite.getS3ContentReplaceValues []
        [("API_URL", SiteValue.token "TOK")]) ∧
    (StaticSite.getS3ContentReplaceValues []
        [("API_URL", SiteValue.token "TOK")]).filter
      (fun r => r.files == "**/*.json") = [] := by
  refine ⟨by decide, by decide⟩

/-- C9 (amended): for every declared site environment variable that is
unresolved at synthesis time, `SsrSite` generates replace rules
substituting `"{{ KEY }}"` in `**/*.html`, `**/*.js` and `**/*.json`
files, while `StaticSite` generates them only for `**/*.html` and
`**/*.js` — its generated rules never target JSON files. -/
theorem getS3ContentReplaceValues_cover (env : List (String × SiteValue))
    (rv : List ReplaceValue) (k : String) (v : SiteValue)
    (hmem : (k, v) ∈ env) (hunres : v.isUnresolved = true) :
    (⟨"**/*.html", placeholder k, v.render⟩ ∈
        SsrSite.getS3ContentReplaceValues env ∧
      ⟨"**/*.js", placeholder k, v.render⟩ ∈
        SsrSite.getS3ContentReplaceValues env ∧
      ⟨"**/*.json", placeholder k, v.render⟩ ∈
        SsrSite.getS3ContentReplaceValues env) ∧
    (⟨"**/*.html", placeholder k, v.render⟩ ∈
        StaticSite.getS3ContentReplaceValues rv env ∧
      ⟨"**/*.js", placeholder k, v.render⟩ ∈
        StaticSite.getS3ContentReplaceValues rv env) ∧
    (∀ r ∈ StaticSite.getS3ContentReplaceValues [] env,
      r.files = "**/*.html" ∨ r.files = "**/*.js") := by
  have hfilter : (k, v) ∈ env.filter (fun p => p.2.isUnresolved) :=
    List.mem_filter.mpr ⟨hmem, by simpa using hunres⟩
  refine ⟨⟨?_, ?_, ?_⟩, ⟨?_, ?_⟩, ?_⟩
  · exact List.mem_flatten.mpr
      ⟨_, List.mem_map_of_mem _ hfilter, by simp⟩
  · exact List.mem_flatten.mpr
      ⟨_, List.mem_map_of_mem _ hfilter, by simp⟩
  · exact List.mem_flatten.mpr
      ⟨_, List.mem_map_of_mem _ hfilter, by simp⟩
  · exact List.mem_append_right _ (List.mem_flatten.mpr
      ⟨_, List.mem_map_of_mem _ hfilter, by simp⟩)
  · exact List.mem_append_right _ (List.mem_flatten.mpr
      ⟨_, List.mem_map_of_mem _ hfilter, by simp⟩)
  · intro r hr
    unfold StaticSite.getS3ContentReplaceValues at hr
    rw [List.nil_append] at hr
    obtain ⟨block, hblock, hrb⟩ := List.mem_flatten.mp hr
    obtain ⟨p, _, hp⟩ := List.mem_map.mp hblock
    subst hp
    simp only [List.mem_cons, List.not_mem_nil, or_false] at hrb
    rcases hrb with h | h
    · left; rw [h]
    · right; rw [h]

/-- C9 witness: with `API_URL` declared as an unresolved token, `SsrSite`
generates the JSON rule and `StaticSite` generates the HTML rule. -/
theorem getS3ContentReplaceValues_cover_witness :
    (⟨"**/*.json", placeholder "API_URL", "TOK"⟩ ∈
      SsrSite.getS3ContentReplaceValues
        [("API_URL", SiteValue.token "TOK")]) ∧
    (⟨"**/*.html", placeholder "API_URL", "TOK"⟩ ∈
      StaticSite.getS3ContentReplaceValues []
        [("API_URL", SiteValue.token "TOK")]) :=
  ⟨(getS3ContentReplaceValues_cover [("API_URL", SiteValue.token "TOK")]
      [] "API_URL" (SiteValue.token "TOK") (by decide) rfl).1.2.2,
    (getS3ContentReplaceValues_cover [("API_URL", SiteValue.token "TOK")]
      [] "API_URL" (SiteValue.token "TOK") (by decide) rfl).2.1.1⟩
